import Mathlib

/-!
Shallow embedding of the `src/scraper` pipeline of `pklimuk/ethack-apps`:
the helper utilities (`utils/helpers.py`), the metrics calculator
(`calculators/metrics.py`), the RedStone price oracle (`services/redstone.py`)
and the pool fetchers (`services/pancakeswap.py`, `services/uniswap_v3.py`).

Python floats are modelled by exact rationals (`ℚ`), Python dicts by
ordered association lists with replace-or-append insertion (`dictInsert`)
and first-match lookup (`dictLookup`), timestamps by natural-number
seconds, and async/HTTP effects by explicit parameters carrying the
remote responses.
-/

namespace Scraper

/-- Python-dict lookup on an association list: the first entry whose key
matches wins (dict keys are unique, so this agrees with `d[k]`). -/
def dictLookup {α : Type} : List (String × α) → String → Option α
  | [], _ => none
  | e :: rest, k => if e.1 = k then some e.2 else dictLookup rest k

/-- Python-dict assignment `d[k] = v` on an association list: replaces the
existing entry for `k` in place, or appends a new entry at the end,
preserving insertion order exactly as a Python dict does. -/
def dictInsert {α : Type} : List (String × α) → String → α → List (String × α)
  | [], k, v => [(k, v)]
  | e :: rest, k, v => if e.1 = k then (k, v) :: rest else e :: dictInsert rest k v


/-- ASCII lower-to-upper case mapping on one character. -/
def charUpper (c : Char) : Char :=
  if 97 ≤ c.toNat ∧ c.toNat ≤ 122 then Char.ofNat (c.toNat - 32) else c

/-- ASCII upper-to-lower case mapping on one character. -/
def charLower (c : Char) : Char :=
  if 65 ≤ c.toNat ∧ c.toNat ≤ 90 then Char.ofNat (c.toNat + 32) else c

/-- Python's `str.upper()` restricted to ASCII, which covers the token
ticker symbols the scraper handles. -/
def pyUpper (s : String) : String := String.mk (s.data.map charUpper)

/-- Python's `str.lower()` restricted to ASCII. -/
def pyLower (s : String) : String := String.mk (s.data.map charLower)

/-! ## `utils/helpers.py` -/

/-- `calculate_apy` from `src/scraper/src/utils/helpers.py`: returns `0`
for `apr ≤ 0` (the `None` guard of the Python code is outside the numeric
domain), otherwise compounds `daily_rate = apr / 365` over 365 days and
scales by 100. Note the code divides the incoming `apr` by 365 only —
there is no `/100` — exactly as written in the source. -/
def calculate_apy (apr : ℚ) : ℚ :=
  if apr ≤ 0 then 0
  else ((1 + apr / 365) ^ (365 : ℕ) - 1) * 100

/-- One run of the `retry_on_failure` wrapper from
`src/scraper/src/utils/helpers.py`. `f i` is the outcome of the
`(i+1)`-th invocation of the wrapped coroutine; `remaining` counts how
many further attempts the `for attempt in range(max_retries + 1)` loop
still allows (`remaining = max_retries - attempt`). The result pairs the
final outcome (the value returned, or the last exception re-raised after
the loop) with the number of times the wrapped function was invoked. -/
def retryLoop {E A : Type} (f : Nat → Except E A) : Nat → Nat → Except E A × Nat
  | attempt, 0 =>
    match f attempt with
    | .ok a => (.ok a, 1)
    | .error e => (.error e, 1)
  | attempt, remaining + 1 =>
    match f attempt with
    | .ok a => (.ok a, 1)
    | .error _ =>
      let r := retryLoop f (attempt + 1) remaining
      (r.1, r.2 + 1)

/-- `retry_on_failure(max_retries)` applied to an operation whose
invocation outcomes are given by `f`: the loop starts at attempt `0` with
`max_retries` further attempts allowed. -/
def retry_on_failure {E A : Type} (maxRetries : Nat) (f : Nat → Except E A) :
    Except E A × Nat :=
  retryLoop f 0 maxRetries


/-! ## `calculators/metrics.py` -/

/-- The four concrete pool dataclasses calculate_pool_metrics dispatches on
(`isinstance` checks in `metrics.py`). -/
inductive Protocol
  | uniswapV3
  | sushiswap
  | curve
  | pancakeswap
deriving DecidableEq

/-- Union of the fields of `UniswapV3Pool`, `SushiSwapPool`, `CurvePool`
and `PancakeSwapPool` that the metrics calculator reads. Fields a given
dataclass does not declare keep their Python `getattr` defaults (`0.0`,
`''`, `[]`) and are never read on other protocols' dispatch paths:
`coin_symbols`/`balances`/`rewards_apy` are `CurvePool` fields, `farm_apy`
is a `PancakeSwapPool` field, `fee` is the integer fee tier on
`UniswapV3Pool` and the fractional trading fee on `CurvePool`. -/
structure Pool where
  protocol : Protocol
  network : String := "ethereum"
  token0_symbol : String := ""
  token1_symbol : String := ""
  coin_symbols : List String := []
  balances : List ℚ := []
  token0_reserve : ℚ := 0
  token1_reserve : ℚ := 0
  tvl_usd : ℚ := 0
  volume_24h : ℚ := 0
  fees_24h : ℚ := 0
  fee : ℚ := 0
  rewards_apy : ℚ := 0
  farm_apy : ℚ := 0
deriving DecidableEq

/-- `MetricsCalculator._get_token0_symbol`: a Curve pool with a non-empty
coin list yields its first coin symbol; otherwise `getattr(pool,
'token0_symbol', '')` (which is `''` for a Curve pool, since `CurvePool`
has no `token0_symbol` attribute). -/
def get_token0_symbol (p : Pool) : String :=
  match p.protocol with
  | .curve => (p.coin_symbols.head?).getD ""
  | _ => p.token0_symbol

/-- `MetricsCalculator._get_token1_symbol`. -/
def get_token1_symbol (p : Pool) : String :=
  match p.protocol with
  | .curve => p.coin_symbols.getD 1 ""
  | _ => p.token1_symbol

/-- `MetricsCalculator._get_token0_reserve`. -/
def get_token0_reserve (p : Pool) : ℚ :=
  match p.protocol with
  | .curve => p.balances.getD 0 0
  | _ => p.token0_reserve

/-- `MetricsCalculator._get_token1_reserve`. -/
def get_token1_reserve (p : Pool) : ℚ :=
  match p.protocol with
  | .curve => p.balances.getD 1 0
  | _ => p.token1_reserve

/-- `MetricsCalculator._get_protocol_name`. -/
def get_protocol_name (p : Pool) : String :=
  match p.protocol with
  | .uniswapV3 => "Uniswap V3"
  | .sushiswap => "SushiSwap"
  | .curve => "Curve"
  | .pancakeswap => "PancakeSwap"

/-- `token_prices.get(key, default)` on the price dict. -/
def priceGetD (prices : List (String × ℚ)) (k : String) (d : ℚ) : ℚ :=
  (dictLookup prices k).getD d

/-- `MetricsCalculator._calculate_tvl`: a positive `tvl_usd` supplied by
the source is trusted (every pool dataclass declares `tvl_usd`, so the
`hasattr` test always passes); otherwise TVL is recomputed from the
reserves and the lower-cased-symbol price lookups with default `0.0`. -/
def calculate_tvl (p : Pool) (token_prices : List (String × ℚ)) : ℚ :=
  if p.tvl_usd > 0 then p.tvl_usd
  else
    get_token0_reserve p * priceGetD token_prices (pyLower (get_token0_symbol p)) 0
      + get_token1_reserve p * priceGetD token_prices (pyLower (get_token1_symbol p)) 0

/-- `MetricsCalculator._get_fee_rate`. -/
def get_fee_rate (p : Pool) : ℚ :=
  match p.protocol with
  | .uniswapV3 => p.fee / 1000000
  | .sushiswap => 3 / 1000
  | .curve => p.fee
  | .pancakeswap => 25 / 10000

/-- `MetricsCalculator._calculate_base_apr`: uses realized `fees_24h` when
positive and TVL positive, otherwise estimates fees from volume and the
protocol fee rate, otherwise `0.0`. Both divisions are guarded by
`tvl_usd > 0`. -/
def calculate_base_apr (p : Pool) (tvl_usd : ℚ) : ℚ :=
  if p.fees_24h > 0 ∧ tvl_usd > 0 then
    p.fees_24h * 365 / tvl_usd * 100
  else if p.volume_24h > 0 ∧ tvl_usd > 0 then
    p.volume_24h * get_fee_rate p * 365 / tvl_usd * 100
  else 0

/-- `MetricsCalculator._get_rewards_apr`. -/
def get_rewards_apr (p : Pool) : ℚ :=
  match p.protocol with
  | .curve => p.rewards_apy
  | .pancakeswap => p.farm_apy
  | _ => 0

/-- The `stable_tokens` set of `_estimate_impermanent_loss`. -/
def stable_tokens : List String := ["USDT", "USDC", "DAI", "BUSD"]

/-- `MetricsCalculator._estimate_impermanent_loss`: a Curve pool returns
the fixed constant `0.1` (independent of `days`); AMM pools scale a
per-day constant chosen by how many of the two symbols are in the
stable-token set. -/
def estimate_impermanent_loss (p : Pool) (days : ℚ) : ℚ :=
  if p.protocol = .curve then 1 / 10
  else if get_token0_symbol p ∈ stable_tokens ∧ get_token1_symbol p ∈ stable_tokens then
    1 / 10 * days
  else if get_token0_symbol p ∈ stable_tokens ∨ get_token1_symbol p ∈ stable_tokens then
    1 * days
  else 2 * days

/-- `MetricsCalculator._calculate_sharpe_ratio` (field `sharpe` below):
`None` when `risk ≤ 0`, else excess return over
`risk_free_rate * 100 = 5` divided by risk. -/
def calculate_sharpe (apy risk : ℚ) : Option ℚ :=
  if risk ≤ 0 then none else some ((apy - 5) / risk)

/-- IL summand of `_calculate_risk_score`: `min(impermanent_loss * 2, 40)`. -/
def il_risk_component (impermanent_loss : ℚ) : ℚ :=
  min (impermanent_loss * 2) 40

/-- TVL summand of `_calculate_risk_score`. -/
def tvl_risk_component (tvl_usd : ℚ) : ℚ :=
  if tvl_usd > 50000000 then 0
  else if tvl_usd > 10000000 then 10
  else if tvl_usd > 1000000 then 20
  else 30

/-- Protocol summand of `_calculate_risk_score` (the source comment says
"0-20 points" but the branches produce only 0, 5 or 15). -/
def protocol_risk_component (p : Pool) : ℚ :=
  if get_protocol_name p ∈ ["Uniswap V3", "Curve"] then 0
  else if get_protocol_name p ∈ ["SushiSwap"] then 5
  else 15

/-- Network summand of `_calculate_risk_score` (the source comment says
"0-10 points" but the branches produce only 0, 3 or 7). -/
def network_risk_component (p : Pool) : ℚ :=
  if p.network = "ethereum" then 0
  else if p.network ∈ ["polygon", "arbitrum"] then 3
  else 7

/-- `MetricsCalculator._calculate_risk_score`: sum of the four summands,
capped at 100. -/
def calculate_risk_score (p : Pool) (impermanent_loss tvl_usd : ℚ) : ℚ :=
  min (il_risk_component impermanent_loss + tvl_risk_component tvl_usd
    + protocol_risk_component p + network_risk_component p) 100

/-- `MetricsCalculator._calculate_liquidity_depth`. -/
def calculate_liquidity_depth (tvl_usd : ℚ) : ℚ :=
  if tvl_usd > 100000000 then 10
  else if tvl_usd > 50000000 then 8
  else if tvl_usd > 10000000 then 6
  else if tvl_usd > 1000000 then 4
  else 2

/-- `MetricsCalculator._estimate_price_impact`: reads the pool's own
`tvl_usd` attribute (not the recomputed TVL); returns the maximum impact
`100.0` when that attribute is zero, otherwise
`(trade_size / tvl) * k` with the protocol curve constant `k`. -/
def estimate_price_impact (p : Pool) (percent : ℚ) : ℚ :=
  if p.tvl_usd = 0 then 100
  else
    let trade_size := p.tvl_usd * (percent / 100)
    match p.protocol with
    | .curve => trade_size / p.tvl_usd * (1 / 10)
    | .uniswapV3 => trade_size / p.tvl_usd * (1 / 2)
    | _ => trade_size / p.tvl_usd * (3 / 10)

/-- Numeric fields of the `PoolMetrics` dataclass produced by
`calculate_pool_metrics` (string identity fields and the timestamp are
omitted; `sharpe` stands for the source's Sharpe-ratio field). -/
structure PoolMetrics where
  token0_price : ℚ
  token1_price : ℚ
  tvl_usd : ℚ
  volume_24h : ℚ
  fees_24h : ℚ
  apr_base : ℚ
  apr_rewards : ℚ
  apy_base : ℚ
  apy_total : ℚ
  impermanent_loss_1d : ℚ
  impermanent_loss_7d : ℚ
  sharpe : Option ℚ
  risk_score : ℚ
  liquidity_depth : ℚ
  price_impact_1pct : ℚ
deriving DecidableEq

/-- `MetricsCalculator.calculate_pool_metrics`, parameterized by the price
dict that `_get_token_prices` returned (the oracle call is the only
awaited effect). -/
def calculate_pool_metrics (p : Pool) (token_prices : List (String × ℚ)) : PoolMetrics :=
  let tvl_usd := calculate_tvl p token_prices
  let apr_base := calculate_base_apr p tvl_usd
  let apy_base := calculate_apy apr_base
  let apr_rewards := get_rewards_apr p
  let apy_total := calculate_apy (apr_base + apr_rewards)
  let impermanent_loss_1d := estimate_impermanent_loss p 1
  let impermanent_loss_7d := estimate_impermanent_loss p 7
  { token0_price := priceGetD token_prices (pyLower (get_token0_symbol p)) 0
    token1_price := priceGetD token_prices (pyLower (get_token1_symbol p)) 0
    tvl_usd := tvl_usd
    volume_24h := p.volume_24h
    fees_24h := p.fees_24h
    apr_base := apr_base
    apr_rewards := apr_rewards
    apy_base := apy_base
    apy_total := apy_total
    impermanent_loss_1d := impermanent_loss_1d
    impermanent_loss_7d := impermanent_loss_7d
    sharpe := calculate_sharpe apy_total impermanent_loss_7d
    risk_score := calculate_risk_score p impermanent_loss_7d tvl_usd
    liquidity_depth := calculate_liquidity_depth tvl_usd
    price_impact_1pct := estimate_price_impact p 1 }

/-- The exception fallback of `MetricsCalculator._get_token_prices`:
`{symbol.lower(): 0.0 for symbol in symbols}` — every requested symbol is
silently mapped to the price `0.0`. -/
def get_token_prices_on_error (symbols : List String) : List (String × ℚ) :=
  symbols.foldl (fun m s => dictInsert m (pyLower s) 0) []

/-! ## `services/redstone.py` -/

/-- The RedStone price cache `self.price_cache`: upper-cased symbol ↦
(price, timestamp). Timestamps are seconds. -/
abbrev PriceCache := List (String × (ℚ × ℕ))

/-- `self.cache_ttl = timedelta(minutes=5)`, in seconds. -/
def cache_ttl : ℕ := 300

/-- The cache test both `get_price` and `get_prices` perform: a cached
entry is served only when `datetime.now() - timestamp < self.cache_ttl`. -/
def cacheFresh (cache : PriceCache) (key : String) (now : ℕ) : Option ℚ :=
  match dictLookup cache key with
  | some (price, ts) => if now - ts < cache_ttl then some price else none
  | none => none

/-- Outcome of one `RedStoneService.get_price` call: the returned value
(`None` on a failed lookup), the cache afterwards, and whether a remote
fetch was issued. -/
structure GetPriceResult where
  result : Option ℚ
  cache : PriceCache
  fetched : Bool
deriving DecidableEq

/-- `RedStoneService.get_price(symbol)` at time `now`: serve a fresh cache
entry without fetching; otherwise fetch remotely — `response` is the JSON
body the fetch returns, `[]` when the transport failed (the code's
`if response and symbol.upper() in response` is false for an empty body).
Only a successful lookup writes the cache; a miss returns `None` and
leaves the cache untouched, as does the exception branch. -/
def get_price (cache : PriceCache) (now : ℕ) (symbol : String)
    (response : List (String × ℚ)) : GetPriceResult :=
  match cacheFresh cache (pyUpper symbol) now with
  | some price => ⟨some price, cache, false⟩
  | none =>
    if response = [] then ⟨none, cache, true⟩
    else
      match dictLookup response (pyUpper symbol) with
      | some price => ⟨some price, dictInsert cache (pyUpper symbol) (price, now), true⟩
      | none => ⟨none, cache, true⟩

/-- Outcome of one `RedStoneService.get_prices` call: the returned dict
(values are `none` for the explicit `None` unknown marker), the cache
afterwards, and `symbols_to_fetch` (the upper-cased symbols the call
actually sent to the remote endpoint; `[]` means no fetch was issued). -/
structure GetPricesResult where
  results : List (String × Option ℚ)
  cache : PriceCache
  fetched : List String
deriving DecidableEq

/-- One iteration of the first loop of `get_prices`: a fresh cache hit is
stored into `results` under the symbol exactly as passed; otherwise the
upper-cased symbol is appended to `symbols_to_fetch`. -/
def pricesStep (cache : PriceCache) (now : ℕ)
    (acc : List (String × Option ℚ) × List String) (symbol : String) :
    List (String × Option ℚ) × List String :=
  match cacheFresh cache (pyUpper symbol) now with
  | some price => (dictInsert acc.1 symbol (some price), acc.2)
  | none => (acc.1, acc.2 ++ [(pyUpper symbol)])

/-- One iteration of the second loop of `get_prices`, over
`symbols_to_fetch` (already upper-cased): a symbol present in the response
is cached at `(price, now)` and stored into `results` under
`symbol.lower()`; a symbol absent from the response is stored as the
explicit `None` under `symbol.lower()` and the cache is not touched. -/
def fetchStep (resp : List (String × ℚ)) (now : ℕ)
    (acc : List (String × Option ℚ) × PriceCache) (symbol : String) :
    List (String × Option ℚ) × PriceCache :=
  match dictLookup resp symbol with
  | some price =>
    (dictInsert acc.1 (pyLower symbol) (some price), dictInsert acc.2 symbol (price, now))
  | none => (dictInsert acc.1 (pyLower symbol) none, acc.2)

/-- `RedStoneService.get_prices(symbols)` at time `now`. `response` is the
outcome of the batched remote fetch: `.error ()` models the `except`
branch (which returns `{s.lower(): None for s in symbols}` and leaves the
cache untouched), `.ok []` an empty/falsy JSON body (the `if response:`
guard fails, so only the cache hits collected so far are returned), and
`.ok resp` a non-empty body processed by the second loop. When every
symbol is a fresh cache hit the function returns early with no fetch. -/
def get_prices (cache : PriceCache) (now : ℕ) (symbols : List String)
    (response : Except Unit (List (String × ℚ))) : GetPricesResult :=
  let firstPass := symbols.foldl (pricesStep cache now) ([], [])
  let results := firstPass.1
  let symbols_to_fetch := firstPass.2
  if symbols_to_fetch = [] then ⟨results, cache, []⟩
  else
    match response with
    | .error _ =>
      ⟨symbols.foldl (fun m s => dictInsert m (pyLower s) none) [], cache, symbols_to_fetch⟩
    | .ok resp =>
      if resp = [] then ⟨results, cache, symbols_to_fetch⟩
      else
        let second := symbols_to_fetch.foldl (fetchStep resp now) (results, cache)
        ⟨second.1, second.2, symbols_to_fetch⟩

/-- The symbols `get_prices` sends to the remote endpoint: exactly the
requested symbols without a fresh cache entry, upper-cased, in request
order. -/
def symbolsToFetch (cache : PriceCache) (now : ℕ) (symbols : List String) : List String :=
  (symbols.filter fun s => (cacheFresh cache (pyUpper s) now).isNone).map (fun s => (pyUpper s))

/-! ## `services/pancakeswap.py` and `services/uniswap_v3.py` fetchers -/

/-- `config.MIN_TVL_THRESHOLD` default from `config/settings.py`. -/
def MIN_TVL_THRESHOLD : ℚ := 100000

/-- `config.MAX_POOLS_PER_DEX` default from `config/settings.py`. -/
def MAX_POOLS_PER_DEX : ℕ := 50

/-- The per-pool data the fetcher claims depend on. -/
structure FetchedPool where
  address : String
  tvl_usd : ℚ
deriving DecidableEq

/-- Outcome of `PancakeSwapService.get_top_pools`: the returned pools and
whether the second (subgraph) and third (DeFiLlama) tiers were invoked. -/
structure PancakeFetchResult where
  pools : List FetchedPool
  subgraph_called : Bool
  defillama_called : Bool
deriving DecidableEq

/-- `PancakeSwapService.get_top_pools(limit)`. `api_pools` is the sorted
pool list parsed by `_get_pools_from_api` (empty on failure) — that tier
keeps at most `MAX_POOLS_PER_DEX` pools and ignores `limit`;
`sub_pools` the subgraph's pool list, of which the tier requests
`first: min(limit, MAX_POOLS_PER_DEX)`; `llama_pools` the DeFiLlama pools
matching the protocol/chain filter, of which the tier keeps at most
`MAX_POOLS_PER_DEX`. Each later tier runs only if the previous produced a
falsy (empty) list; the final list is filtered by the TVL threshold and
truncated to `MAX_POOLS_PER_DEX` (not to `limit`). -/
def pancakeswap_get_top_pools (limit : ℕ)
    (api_pools sub_pools llama_pools : List FetchedPool) : PancakeFetchResult :=
  let tier1 := api_pools.take MAX_POOLS_PER_DEX
  let sub_called := tier1.isEmpty
  let tier2 := if tier1.isEmpty then sub_pools.take (min limit MAX_POOLS_PER_DEX) else tier1
  let llama_called := tier2.isEmpty
  let tier3 := if tier2.isEmpty then llama_pools.take MAX_POOLS_PER_DEX else tier2
  ⟨(tier3.filter fun p => MIN_TVL_THRESHOLD ≤ p.tvl_usd).take MAX_POOLS_PER_DEX,
    sub_called, llama_called⟩

/-- `UniswapV3Service.get_top_pools(limit)`: the subgraph query asks for
`first: min(limit, MAX_POOLS_PER_DEX)` pools ordered by TVL (`sub_pools`
is the full provider-side ordering) and the parse loop keeps only pools
with `tvl_usd >= MIN_TVL_THRESHOLD`. -/
def uniswap_get_top_pools (limit : ℕ) (sub_pools : List FetchedPool) : List FetchedPool :=
  (sub_pools.take (min limit MAX_POOLS_PER_DEX)).filter
    fun p => MIN_TVL_THRESHOLD ≤ p.tvl_usd


/-! ## Concrete inputs used to instantiate the claims -/

/-- A SushiSwap pool carrying its dataclass defaults: every numeric field
zero, both symbols empty. -/
def zeroPool : Pool := { protocol := .sushiswap }

/-- The stable-swap pool of the spec's end-to-end scenario: a Curve pool
with reserves `[1,000,000 USDC, 1,000,000 USDT]` and `fees_24h = 40`. -/
def curveScenarioPool : Pool :=
  { protocol := .curve, coin_symbols := ["USDC", "USDT"],
    balances := [1000000, 1000000], fees_24h := 40 }

/-- The scenario's oracle prices `{USDC: 1.0, USDT: 1.0}`, keyed the way
`get_prices` keys fetched symbols (lower-cased). -/
def curveScenarioPrices : List (String × ℚ) := [("usdc", 1), ("usdt", 1)]

/-- A SushiSwap USDC/ETH pool holding 5 USDC whose ETH side is empty,
used to compare a zero USDC price against an unavailable USDC price. -/
def usdcPool : Pool :=
  { protocol := .sushiswap, token0_symbol := "USDC", token1_symbol := "ETH",
    token0_reserve := 5 }

/-- A fetched pool comfortably above the TVL threshold. -/
def bigPoolA : FetchedPool := { address := "0xa", tvl_usd := 200000 }

/-- A second fetched pool above the TVL threshold. -/
def bigPoolB : FetchedPool := { address := "0xb", tvl_usd := 200000 }

/-! ## Helper lemmas -/

theorem dictLookup_dictInsert_self {α : Type} (m : List (String × α)) (k : String) (v : α) :
    dictLookup (dictInsert m k v) k = some v := by
  induction m with
  | nil => simp [dictInsert, dictLookup]
  | cons e rest ih =>
    by_cases h : e.1 = k
    · simp [dictInsert, dictLookup, h]
    · simp [dictInsert, dictLookup, h, ih]

theorem dictLookup_dictInsert_ne {α : Type} (m : List (String × α)) (k k' : String) (v : α)
    (h : k' ≠ k) : dictLookup (dictInsert m k v) k' = dictLookup m k' := by
  induction m with
  | nil => simp [dictInsert, dictLookup, Ne.symm h]
  | cons e rest ih =>
    by_cases he : e.1 = k
    · simp [dictInsert, dictLookup, he, Ne.symm h]
    · simp [dictInsert, dictLookup, he, ih]

theorem dictLookup_dictInsert_isSome {α : Type} (m : List (String × α)) (k k' : String)
    (v v' : α) (h : dictLookup m k = some v) :
    (dictLookup (dictInsert m k' v') k).isSome := by
  by_cases hk : k = k'
  · subst hk; simp [dictLookup_dictInsert_self]
  · rw [dictLookup_dictInsert_ne m k' k v' hk]
    simp [h]

theorem retryLoop_all_fail {E A : Type} (f : Nat → Except E A) (err : Nat → E)
    (hf : ∀ i, f i = .error (err i)) :
    ∀ remaining attempt,
      retryLoop f attempt remaining = (.error (err (attempt + remaining)), remaining + 1) := by
  intro remaining
  induction remaining with
  | zero => intro attempt; simp [retryLoop, hf attempt]
  | succ n ih =>
    intro attempt
    simp only [retryLoop, hf attempt, ih (attempt + 1)]
    have harith : attempt + 1 + n = attempt + (n + 1) := by omega
    rw [harith]

theorem pricesStep_foldl_fetch (cache : PriceCache) (now : ℕ) :
    ∀ (symbols : List String) (acc : List (String × Option ℚ) × List String),
      (List.foldl (pricesStep cache now) acc symbols).2
        = acc.2 ++ symbolsToFetch cache now symbols := by
  intro symbols
  induction symbols with
  | nil => intro acc; simp [symbolsToFetch]
  | cons s rest ih =>
    intro acc
    rw [List.foldl_cons, ih]
    cases hc : cacheFresh cache (pyUpper s) now with
    | some price =>
      simp [pricesStep, hc, symbolsToFetch]
    | none =>
      simp [pricesStep, hc, symbolsToFetch]

theorem pricesStep_foldl_preserves (cache : PriceCache) (now : ℕ) :
    ∀ (symbols : List String) (acc : List (String × Option ℚ) × List String) (k : String),
      (dictLookup acc.1 k).isSome →
      (dictLookup (List.foldl (pricesStep cache now) acc symbols).1 k).isSome := by
  intro symbols
  induction symbols with
  | nil => intro acc k h; simpa using h
  | cons s rest ih =>
    intro acc k h
    rw [List.foldl_cons]
    apply ih
    cases hc : cacheFresh cache (pyUpper s) now with
    | some price =>
      obtain ⟨v, hv⟩ := Option.isSome_iff_exists.mp h
      simpa [pricesStep, hc] using dictLookup_dictInsert_isSome acc.1 k s v (some price) hv
    | none => simpa [pricesStep, hc] using h

theorem pricesStep_foldl_hit (cache : PriceCache) (now : ℕ) :
    ∀ (symbols : List String) (acc : List (String × Option ℚ) × List String) (s : String),
      s ∈ symbols → (cacheFresh cache (pyUpper s) now).isSome →
      (dictLookup (List.foldl (pricesStep cache now) acc symbols).1 s).isSome := by
  intro symbols
  induction symbols with
  | nil => intro acc s h; exact absurd h (List.not_mem_nil s)
  | cons a rest ih =>
    intro acc s hmem hfresh
    rw [List.foldl_cons]
    rcases List.mem_cons.mp hmem with heq | htail
    · subst heq
      obtain ⟨p, hp⟩ := Option.isSome_iff_exists.mp hfresh
      apply pricesStep_foldl_preserves cache now rest
      simp [pricesStep, hp, dictLookup_dictInsert_self]
    · exact ih _ s htail hfresh

theorem fetchStep_foldl_preserves (resp : List (String × ℚ)) (now : ℕ) :
    ∀ (fetchList : List String) (acc : List (String × Option ℚ) × PriceCache) (k : String),
      (dictLookup acc.1 k).isSome →
      (dictLookup (List.foldl (fetchStep resp now) acc fetchList).1 k).isSome := by
  intro fetchList
  induction fetchList with
  | nil => intro acc k h; simpa using h
  | cons u rest ih =>
    intro acc k h
    rw [List.foldl_cons]
    apply ih
    obtain ⟨v, hv⟩ := Option.isSome_iff_exists.mp h
    cases hu : dictLookup resp u with
    | some price =>
      simpa [fetchStep, hu] using
        dictLookup_dictInsert_isSome acc.1 k (pyLower u) v (some price) hv
    | none =>
      simpa [fetchStep, hu] using
        dictLookup_dictInsert_isSome acc.1 k (pyLower u) v none hv

theorem fetchStep_foldl_entry (resp : List (String × ℚ)) (now : ℕ) :
    ∀ (fetchList : List String) (acc : List (String × Option ℚ) × PriceCache) (u : String),
      u ∈ fetchList →
      (dictLookup (List.foldl (fetchStep resp now) acc fetchList).1 (pyLower u)).isSome := by
  intro fetchList
  induction fetchList with
  | nil => intro acc u h; exact absurd h (List.not_mem_nil u)
  | cons a rest ih =>
    intro acc u hmem
    rw [List.foldl_cons]
    rcases List.mem_cons.mp hmem with heq | htail
    · subst heq
      apply fetchStep_foldl_preserves resp now rest
      cases hu : dictLookup resp u with
      | some price => simp [fetchStep, hu, dictLookup_dictInsert_self]
      | none => simp [fetchStep, hu, dictLookup_dictInsert_self]
    · exact ih _ u htail

theorem fetchStep_foldl_cache (resp : List (String × ℚ)) (now : ℕ) :
    ∀ (fetchList : List String) (acc : List (String × Option ℚ) × PriceCache) (k : String),
      dictLookup (List.foldl (fetchStep resp now) acc fetchList).2 k = dictLookup acc.2 k ∨
      (k ∈ fetchList ∧ ∃ p, dictLookup resp k = some p ∧
        dictLookup (List.foldl (fetchStep resp now) acc fetchList).2 k = some (p, now)) := by
  intro fetchList
  induction fetchList with
  | nil => intro acc k; left; rfl
  | cons u rest ih =>
    intro acc k
    rw [List.foldl_cons]
    cases hu : dictLookup resp u with
    | none =>
      rcases ih (fetchStep resp now acc u) k with h | ⟨hmem, p, hp, hl⟩
      · left
        rw [h]
        simp [fetchStep, hu]
      · right
        exact ⟨List.mem_cons_of_mem u hmem, p, hp, hl⟩
    | some price =>
      rcases ih (fetchStep resp now acc u) k with h | ⟨hmem, p, hp, hl⟩
      · by_cases hk : k = u
        · subst hk
          right
          refine ⟨List.mem_cons_self k rest, price, hu, ?_⟩
          rw [h]
          simp [fetchStep, hu, dictLookup_dictInsert_self]
        · left
          rw [h]
          simp only [fetchStep, hu]
          exact dictLookup_dictInsert_ne acc.2 u k (price, now) hk
      · right
        exact ⟨List.mem_cons_of_mem u hmem, p, hp, hl⟩

theorem get_prices_eq_no_fetch (cache : PriceCache) (now : ℕ) (symbols : List String)
    (response : Except Unit (List (String × ℚ)))
    (h : (List.foldl (pricesStep cache now) ([], []) symbols).2 = []) :
    get_prices cache now symbols response
      = ⟨(List.foldl (pricesStep cache now) ([], []) symbols).1, cache, []⟩ := by
  unfold get_prices
  simp [h]

theorem get_prices_eq_fetch_ok (cache : PriceCache) (now : ℕ) (symbols : List String)
    (resp : List (String × ℚ))
    (h : (List.foldl (pricesStep cache now) ([], []) symbols).2 ≠ [])
    (hr : resp ≠ []) :
    get_prices cache now symbols (.ok resp)
      = ⟨(List.foldl (fetchStep resp now)
            ((List.foldl (pricesStep cache now) ([], []) symbols).1, cache)
            (List.foldl (pricesStep cache now) ([], []) symbols).2).1,
         (List.foldl (fetchStep resp now)
            ((List.foldl (pricesStep cache now) ([], []) symbols).1, cache)
            (List.foldl (pricesStep cache now) ([], []) symbols).2).2,
         (List.foldl (pricesStep cache now) ([], []) symbols).2⟩ := by
  unfold get_prices
  simp [h, hr]

/-! ## C4 — get_prices partitioning, cache discipline and keying -/

/-- C4 counterexample: `get_prices(["BTC"])` on an empty cache with an
empty remote response body issues a fetch for BTC but returns an empty
dict — no entry for the requested symbol under any keying, contradicting
"the returned map contains an entry for every requested symbol". -/
theorem c4_counterexample_dropped_symbol :
    (get_prices [] 0 ["BTC"] (.ok [])).fetched = ["BTC"] ∧
    (get_prices [] 0 ["BTC"] (.ok [])).results = [] := by
  constructor <;>
    simp [get_prices, pricesStep, cacheFresh, dictLookup,
      show pyUpper "BTC" = "BTC" from by decide]

/-- C4 amended: on a non-empty remote response, `get_prices` fetches
exactly the requested symbols lacking a fresh cache entry (upper-cased,
in request order); the cache changes only at fetched symbols that the
response priced, which are stamped `(price, now)` — failed fetches are
not cached; and every requested symbol has a result entry, but under two
keyings: cache hits are keyed by the symbol exactly as passed while
fetched symbols are keyed by the lower-cased upper-cased symbol (and with
an empty response body, symbols that missed the cache get no entry at
all). -/
theorem c4_get_prices_contract (cache : PriceCache) (now : ℕ) (symbols : List String)
    (resp : List (String × ℚ)) (hne : resp ≠ []) :
    (get_prices cache now symbols (.ok resp)).fetched
      = symbolsToFetch cache now symbols ∧
    (∀ k, dictLookup (get_prices cache now symbols (.ok resp)).cache k
        = dictLookup cache k ∨
      (k ∈ (get_prices cache now symbols (.ok resp)).fetched ∧
        ∃ p, dictLookup resp k = some p ∧
          dictLookup (get_prices cache now symbols (.ok resp)).cache k = some (p, now))) ∧
    (∀ s ∈ symbols,
      (dictLookup (get_prices cache now symbols (.ok resp)).results s).isSome ∨
      (dictLookup (get_prices cache now symbols (.ok resp)).results
        (pyLower (pyUpper s))).isSome) := by
  have hfetch : (List.foldl (pricesStep cache now) ([], []) symbols).2
      = symbolsToFetch cache now symbols := by
    simpa using pricesStep_foldl_fetch cache now symbols ([], [])
  by_cases hempty : (List.foldl (pricesStep cache now) ([], []) symbols).2 = []
  · have hr := get_prices_eq_no_fetch cache now symbols (.ok resp) hempty
    have hallfresh : ∀ s ∈ symbols, (cacheFresh cache (pyUpper s) now).isSome := by
      intro s hs
      have hnil : (symbols.filter fun s => (cacheFresh cache (pyUpper s) now).isNone)
          = [] := by
        have := hfetch.symm.trans hempty
        exact List.map_eq_nil_iff.mp this
      have hnotin := List.filter_eq_nil_iff.mp hnil s hs
      cases hcf : cacheFresh cache (pyUpper s) now with
      | some _ => rfl
      | none => exact absurd (by simp [hcf]) hnotin
    rw [hr]
    refine ⟨by rw [← hfetch, hempty], fun k => Or.inl rfl, ?_⟩
    intro s hs
    exact Or.inl (pricesStep_foldl_hit cache now symbols ([], []) s hs (hallfresh s hs))
  · have hr := get_prices_eq_fetch_ok cache now symbols resp hempty hne
    rw [hr]
    refine ⟨hfetch, ?_, ?_⟩
    · intro k
      rcases fetchStep_foldl_cache resp now
          (List.foldl (pricesStep cache now) ([], []) symbols).2
          ((List.foldl (pricesStep cache now) ([], []) symbols).1, cache) k with
        h | ⟨hmem, p, hp, hl⟩
      · exact Or.inl h
      · exact Or.inr ⟨hmem, p, hp, hl⟩
    · intro s hs
      cases hcf : cacheFresh cache (pyUpper s) now with
      | some price =>
        exact Or.inl (fetchStep_foldl_preserves resp now _ _ s
          (pricesStep_foldl_hit cache now symbols ([], []) s hs (by simp [hcf])))
      | none =>
        refine Or.inr ?_
        apply fetchStep_foldl_entry resp now _ _ (pyUpper s)
        rw [hfetch]
        exact List.mem_map_of_mem _ (List.mem_filter.mpr ⟨hs, by simp [hcf]⟩)

/-- Witness for C4's amended theorem: ETH fresh in the cache, BTC fetched
from a response that prices it. -/
theorem c4_get_prices_contract_witness :
    (get_prices [("ETH", (2000, 0))] 0 ["ETH", "BTC"] (.ok [("BTC", 9)])).fetched
      = symbolsToFetch [("ETH", (2000, 0))] 0 ["ETH", "BTC"] ∧
    (∀ k, dictLookup (get_prices [("ETH", (2000, 0))] 0 ["ETH", "BTC"]
          (.ok [("BTC", 9)])).cache k
        = dictLookup [("ETH", (2000, 0))] k ∨
      (k ∈ (get_prices [("ETH", (2000, 0))] 0 ["ETH", "BTC"] (.ok [("BTC", 9)])).fetched ∧
        ∃ p, dictLookup [("BTC", 9)] k = some p ∧
          dictLookup (get_prices [("ETH", (2000, 0))] 0 ["ETH", "BTC"]
            (.ok [("BTC", 9)])).cache k = some (p, 0))) ∧
    (∀ s ∈ ["ETH", "BTC"],
      (dictLookup (get_prices [("ETH", (2000, 0))] 0 ["ETH", "BTC"]
        (.ok [("BTC", 9)])).results s).isSome ∨
      (dictLookup (get_prices [("ETH", (2000, 0))] 0 ["ETH", "BTC"]
        (.ok [("BTC", 9)])).results (pyLower (pyUpper s))).isSome) :=
  c4_get_prices_contract [("ETH", (2000, 0))] 0 ["ETH", "BTC"] [("BTC", 9)] (by simp)

/-! ## C3 — representation of unavailable numeric inputs -/

/-- C3 counterexample: the metrics layer cannot distinguish "USDC price is
0" from "USDC price unavailable": the full `PoolMetrics` output is
identical for a price dict carrying `usdc ↦ 0` and one missing the symbol
entirely, and the `_get_token_prices` exception fallback itself coerces
every requested symbol to the price `0.0`. -/
theorem c3_counterexample_zero_coercion :
    calculate_pool_metrics usdcPool [("usdc", 0)] = calculate_pool_metrics usdcPool [] ∧
    get_token_prices_on_error ["USDC"] = [("usdc", 0)] := by
  constructor
  · norm_num [calculate_pool_metrics, calculate_tvl, calculate_base_apr, calculate_apy,
      get_rewards_apr, estimate_impermanent_loss, calculate_sharpe, calculate_risk_score,
      il_risk_component, tvl_risk_component, protocol_risk_component, network_risk_component,
      calculate_liquidity_depth, estimate_price_impact, get_fee_rate, get_token0_symbol,
      get_token1_symbol, get_token0_reserve, get_token1_reserve, get_protocol_name,
      priceGetD, dictLookup, usdcPool, stable_tokens,
      show pyLower "USDC" = "usdc" from by decide,
      show pyLower "ETH" = "eth" from by decide,
      show ("usdc" : String) ≠ "eth" from by decide]
  · simp [get_token_prices_on_error, dictInsert,
      show pyLower "USDC" = "usdc" from by decide]

/-- C3 amended: the oracle layer does mark a fetch miss with an explicit
`None` entry (keyed by the lower-cased symbol), but the metrics layer
erases the distinction: the `_get_token_prices` exception fallback maps
every symbol to the price `0.0`, and the `.get(…, 0.0)` lookups return
the same `0` for an absent symbol as for a genuine zero price, so "zero"
and "unavailable" are indistinguishable in the PoolMetrics output. -/
theorem c3_unknown_marker_and_coercion (s : String) (cache : PriceCache) (now : ℕ)
    (resp : List (String × ℚ))
    (h0 : cacheFresh cache (pyUpper s) now = none)
    (hne : resp ≠ [])
    (hmiss : dictLookup resp (pyUpper s) = none) :
    (get_prices cache now [s] (.ok resp)).results = [(pyLower (pyUpper s), none)] ∧
    get_token_prices_on_error [s] = [(pyLower s, 0)] ∧
    (∀ prices : List (String × ℚ), dictLookup prices (pyLower s) = none →
      priceGetD prices (pyLower s) 0 = priceGetD [(pyLower s, 0)] (pyLower s) 0) := by
  have hF : List.foldl (pricesStep cache now) ([], []) [s] = ([], [pyUpper s]) := by
    simp [pricesStep, h0]
  have hr := get_prices_eq_fetch_ok cache now [s] resp (by rw [hF]; simp) hne
  rw [hF] at hr
  have hsecond : List.foldl (fetchStep resp now) ([], cache) [pyUpper s]
      = ([(pyLower (pyUpper s), none)], cache) := by
    simp [fetchStep, hmiss, dictInsert]
  rw [hsecond] at hr
  refine ⟨by rw [hr], by simp [get_token_prices_on_error, dictInsert], ?_⟩
  intro prices h
  simp [priceGetD, h, dictLookup]

/-- Witness for C3's amended theorem: BTC requested against an empty cache
and a response that only prices ETH. -/
theorem c3_unknown_marker_and_coercion_witness :
    (get_prices [] 0 ["BTC"] (.ok [("ETH", 2000)])).results
      = [(pyLower (pyUpper "BTC"), none)] ∧
    get_token_prices_on_error ["BTC"] = [(pyLower "BTC", 0)] ∧
    (∀ prices : List (String × ℚ), dictLookup prices (pyLower "BTC") = none →
      priceGetD prices (pyLower "BTC") 0 = priceGetD [(pyLower "BTC", 0)] (pyLower "BTC") 0) :=
  c3_unknown_marker_and_coercion "BTC" [] 0 [("ETH", 2000)] rfl (by simp) rfl

theorem get_price_fetched_of_miss (cache : PriceCache) (now : ℕ) (symbol : String)
    (resp : List (String × ℚ)) (h : cacheFresh cache (pyUpper symbol) now = none) :
    (get_price cache now symbol resp).fetched = true := by
  unfold get_price
  split
  · rename_i price heq
    rw [h] at heq
    simp at heq
  · split
    · rfl
    · split <;> rfl

/-! ## C5 — get_price caching across two calls -/

/-- C5 counterexample: two `get_price("ETH")` calls 60 seconds apart can
both issue a remote fetch — when the first call's fetch fails (empty
response body) nothing is cached, so the second call within the TTL
fetches again rather than being served from the cache. -/
theorem c5_counterexample_two_fetches :
    (get_price [] 0 "ETH" []).fetched = true ∧
    (get_price (get_price [] 0 "ETH" []).cache 60 "ETH" []).fetched = true ∧
    (60 : ℕ) - 0 < cache_ttl := by
  refine ⟨?_, ?_, by norm_num [cache_ttl]⟩ <;>
    simp [get_price, cacheFresh, dictLookup]

/-- C5 amended: when a `get_price(symbol)` call misses the cache and its
remote fetch succeeds with `price`, a second call within the 5-minute TTL
issues no fetch and returns the cached `price`, and a call made once the
TTL has elapsed issues a new remote fetch; but a call whose fetch fails
caches nothing, so the at-most-one-fetch guarantee holds only for a
successful first fetch. -/
theorem c5_get_price_ttl (cache : PriceCache) (t0 t1 : ℕ) (symbol : String)
    (resp resp2 : List (String × ℚ)) (price : ℚ)
    (h0 : cacheFresh cache (pyUpper symbol) t0 = none)
    (hne : resp ≠ [])
    (hr : dictLookup resp (pyUpper symbol) = some price) :
    (get_price cache t0 symbol resp).fetched = true ∧
    (get_price cache t0 symbol resp).result = some price ∧
    (t1 - t0 < cache_ttl →
      (get_price (get_price cache t0 symbol resp).cache t1 symbol resp2).fetched = false ∧
      (get_price (get_price cache t0 symbol resp).cache t1 symbol resp2).result
        = some price) ∧
    (cache_ttl ≤ t1 - t0 →
      (get_price (get_price cache t0 symbol resp).cache t1 symbol resp2).fetched = true) := by
  have hr1 : get_price cache t0 symbol resp =
      ⟨some price, dictInsert cache (pyUpper symbol) (price, t0), true⟩ := by
    simp [get_price, h0, hne, hr]
  have hfresh : ∀ t, cacheFresh (dictInsert cache (pyUpper symbol) (price, t0))
      (pyUpper symbol) t = if t - t0 < cache_ttl then some price else none := by
    intro t
    simp [cacheFresh, dictLookup_dictInsert_self]
  rw [hr1]
  refine ⟨rfl, rfl, ?_, ?_⟩
  · intro hlt
    constructor <;> simp [get_price, hfresh t1, hlt]
  · intro hge
    exact get_price_fetched_of_miss _ t1 symbol resp2
      (by rw [hfresh t1, if_neg (not_lt.mpr hge)])

/-- Witness for C5's amended theorem: a successful fetch of ETH at `t = 0`,
re-queried at `t = 100`. -/
theorem c5_get_price_ttl_witness :
    (get_price [] 0 "ETH" [("ETH", 2000)]).fetched = true ∧
    (get_price [] 0 "ETH" [("ETH", 2000)]).result = some 2000 ∧
    ((100 : ℕ) - 0 < cache_ttl →
      (get_price (get_price [] 0 "ETH" [("ETH", 2000)]).cache 100 "ETH" []).fetched = false ∧
      (get_price (get_price [] 0 "ETH" [("ETH", 2000)]).cache 100 "ETH" []).result
        = some 2000) ∧
    (cache_ttl ≤ (100 : ℕ) - 0 →
      (get_price (get_price [] 0 "ETH" [("ETH", 2000)]).cache 100 "ETH" []).fetched = true) :=
  c5_get_price_ttl [] 0 100 "ETH" [("ETH", 2000)] [] 2000 rfl (by simp) rfl

/-! ## C7 — fallback chain stops at the secondary source -/

/-- C7: in `PancakeSwapService.get_top_pools`, when the primary API tier
fails (yields no pools) and the subgraph tier succeeds, the DeFiLlama
tier is never invoked and the returned pools are exactly the subgraph's
pools after the standard TVL-threshold filter and truncation — in
particular every returned pool comes from the secondary source. -/
theorem c7_fallback_uses_secondary (limit : ℕ) (sub llama : List FetchedPool)
    (hsub : sub.take (min limit MAX_POOLS_PER_DEX) ≠ []) :
    (pancakeswap_get_top_pools limit [] sub llama).defillama_called = false ∧
    (pancakeswap_get_top_pools limit [] sub llama).pools =
      ((sub.take (min limit MAX_POOLS_PER_DEX)).filter
        (fun p => MIN_TVL_THRESHOLD ≤ p.tvl_usd)).take MAX_POOLS_PER_DEX ∧
    ∀ p ∈ (pancakeswap_get_top_pools limit [] sub llama).pools, p ∈ sub := by
  have hne : (sub.take (min limit MAX_POOLS_PER_DEX)).isEmpty = false := by
    cases hcase : sub.take (min limit MAX_POOLS_PER_DEX) with
    | nil => exact absurd hcase hsub
    | cons a l => rfl
  have hrec : pancakeswap_get_top_pools limit [] sub llama =
      ⟨((sub.take (min limit MAX_POOLS_PER_DEX)).filter
        (fun p => MIN_TVL_THRESHOLD ≤ p.tvl_usd)).take MAX_POOLS_PER_DEX, true, false⟩ := by
    unfold pancakeswap_get_top_pools
    simp [hne]
  rw [hrec]
  refine ⟨rfl, rfl, ?_⟩
  intro p hp
  have h1 : p ∈ (sub.take (min limit MAX_POOLS_PER_DEX)).filter
      (fun p => MIN_TVL_THRESHOLD ≤ p.tvl_usd) := List.take_subset _ _ hp
  have h2 : p ∈ sub.take (min limit MAX_POOLS_PER_DEX) := List.mem_of_mem_filter h1
  exact List.take_subset _ _ h2

/-- Witness for C7 at `limit = 50` with one subgraph pool. -/
theorem c7_fallback_uses_secondary_witness :
    (pancakeswap_get_top_pools 50 [] [bigPoolA] [bigPoolB]).defillama_called = false ∧
    (pancakeswap_get_top_pools 50 [] [bigPoolA] [bigPoolB]).pools =
      (([bigPoolA].take (min 50 MAX_POOLS_PER_DEX)).filter
        (fun p => MIN_TVL_THRESHOLD ≤ p.tvl_usd)).take MAX_POOLS_PER_DEX ∧
    ∀ p ∈ (pancakeswap_get_top_pools 50 [] [bigPoolA] [bigPoolB]).pools, p ∈ [bigPoolA] :=
  c7_fallback_uses_secondary 50 [bigPoolA] [bigPoolB]
    (by simp [MAX_POOLS_PER_DEX])

/-! ## C8 — threshold filter and length caps -/

/-- C8 counterexample: `PancakeSwapService.get_top_pools(limit=1)` can
return more pools than the requested limit — its API tier and final
truncation cap at `MAX_POOLS_PER_DEX = 50`, ignoring `limit`, so two
above-threshold API pools survive a request for one. -/
theorem c8_counterexample_limit_ignored :
    (pancakeswap_get_top_pools 1 [bigPoolA, bigPoolB] [] []).pools.length = 2 ∧
    ¬ ((pancakeswap_get_top_pools 1 [bigPoolA, bigPoolB] [] []).pools.length ≤ 1) := by
  have hA : decide (MIN_TVL_THRESHOLD ≤ bigPoolA.tvl_usd) = true := by
    rw [decide_eq_true_eq]
    norm_num [MIN_TVL_THRESHOLD, bigPoolA]
  have hB : decide (MIN_TVL_THRESHOLD ≤ bigPoolB.tvl_usd) = true := by
    rw [decide_eq_true_eq]
    norm_num [MIN_TVL_THRESHOLD, bigPoolB]
  have hpools : (pancakeswap_get_top_pools 1 [bigPoolA, bigPoolB] [] []).pools
      = [bigPoolA, bigPoolB] := by
    unfold pancakeswap_get_top_pools
    simp [MAX_POOLS_PER_DEX, List.filter, hA, hB]
  rw [hpools]
  norm_num

/-- C8 amended: the TVL-threshold filter holds for both fetchers and the
Uniswap V3 fetcher also respects the requested limit, but the PancakeSwap
fetcher's result is only capped at `MAX_POOLS_PER_DEX` (its API and
DeFiLlama tiers ignore the requested limit). -/
theorem c8_threshold_and_caps (limit : ℕ) (api sub llama : List FetchedPool) :
    (∀ p ∈ (pancakeswap_get_top_pools limit api sub llama).pools,
      MIN_TVL_THRESHOLD ≤ p.tvl_usd) ∧
    (pancakeswap_get_top_pools limit api sub llama).pools.length ≤ MAX_POOLS_PER_DEX ∧
    (∀ p ∈ uniswap_get_top_pools limit sub, MIN_TVL_THRESHOLD ≤ p.tvl_usd) ∧
    (uniswap_get_top_pools limit sub).length ≤ limit := by
  refine ⟨?_, ?_, ?_, ?_⟩
  · intro p hp
    have h1 := List.take_subset _ _ hp
    have h2 := List.mem_filter.mp h1
    exact of_decide_eq_true h2.2
  · show (List.take MAX_POOLS_PER_DEX _).length ≤ MAX_POOLS_PER_DEX
    rw [List.length_take]
    exact min_le_left _ _
  · intro p hp
    have h2 := List.mem_filter.mp hp
    exact of_decide_eq_true h2.2
  · unfold uniswap_get_top_pools
    have h1 := List.length_filter_le
      (fun p => decide (MIN_TVL_THRESHOLD ≤ p.tvl_usd))
      (sub.take (min limit MAX_POOLS_PER_DEX))
    have h2 : (sub.take (min limit MAX_POOLS_PER_DEX)).length ≤ limit := by
      rw [List.length_take]
      omega
    exact le_trans h1 h2

/-- Witness for C8's amended theorem at `limit = 1`. -/
theorem c8_threshold_and_caps_witness :
    (pancakeswap_get_top_pools 1 [bigPoolA] [bigPoolA] []).pools.length ≤ MAX_POOLS_PER_DEX ∧
    (uniswap_get_top_pools 1 [bigPoolA]).length ≤ 1 :=
  ⟨(c8_threshold_and_caps 1 [bigPoolA] [bigPoolA] []).2.1,
   (c8_threshold_and_caps 1 [bigPoolA] [bigPoolA] []).2.2.2⟩

/-! ## C6 — retry exhaustion -/

/-- C6: an operation wrapped by `retry_on_failure(max_retries)` that fails
on every invocation is invoked exactly `max_retries + 1` times, and the
last failure is re-raised to the caller (never swallowed). -/
theorem c6_retry_exhausts_and_reraises {E A : Type} (maxRetries : Nat)
    (err : Nat → E) (f : Nat → Except E A) (hf : ∀ i, f i = .error (err i)) :
    retry_on_failure maxRetries f = (.error (err maxRetries), maxRetries + 1) := by
  unfold retry_on_failure
  rw [retryLoop_all_fail f err hf maxRetries 0]
  simp

/-- Witness for C6: the always-failing operation whose `i`-th invocation
raises `i`, wrapped with `max_retries = 3`, is invoked 4 times and the
final outcome is the fourth exception. -/
theorem c6_retry_exhausts_and_reraises_witness :
    retry_on_failure 3 (fun i => (Except.error i : Except Nat Unit)) = (.error 3, 4) :=
  c6_retry_exhausts_and_reraises 3 (fun i => i)
    (fun i => (Except.error i : Except Nat Unit)) (fun _ => rfl)

/-! ## C2 — the APR→APY conversion -/

/-- C2 counterexample: `calculate_apy` does not satisfy the claimed
formula `((1 + apr/36500)^365 − 1) × 100`. At `apr = 365` the code
computes `((1 + 365/365)^365 − 1) × 100 = (2^365 − 1) × 100`, which
differs from the claimed `((1 + 365/36500)^365 − 1) × 100`. -/
theorem c2_counterexample_apy_formula :
    calculate_apy 365 ≠ ((1 + (365 : ℚ) / 36500) ^ (365 : ℕ) - 1) * 100 := by
  norm_num [calculate_apy]

/-- C2 amended: `calculate_apy(apr)` equals
`((1 + apr/365)^365 − 1) × 100` for `apr > 0` (the code divides the
incoming APR by 365 only — there is no further `/100`); it is `0` at `0`
and for every `apr ≤ 0`, and it is strictly monotonically increasing for
`apr > 0`. -/
theorem c2_apy_zero_and_monotone :
    calculate_apy 0 = 0 ∧
    (∀ apr : ℚ, apr ≤ 0 → calculate_apy apr = 0) ∧
    (∀ apr : ℚ, 0 < apr →
      calculate_apy apr = ((1 + apr / 365) ^ (365 : ℕ) - 1) * 100) ∧
    (∀ a b : ℚ, 0 < a → a < b → calculate_apy a < calculate_apy b) := by
  refine ⟨?_, ?_, ?_, ?_⟩
  · norm_num [calculate_apy]
  · intro apr h
    simp [calculate_apy, h]
  · intro apr h
    simp [calculate_apy, not_le.mpr h]
  · intro a b ha hab
    have hb : 0 < b := ha.trans hab
    simp only [calculate_apy, if_neg (not_le.mpr ha), if_neg (not_le.mpr hb)]
    have h1 : (0 : ℚ) ≤ 1 + a / 365 := by positivity
    have h2 : 1 + a / 365 < 1 + b / 365 := by linarith
    have h3 : (1 + a / 365) ^ (365 : ℕ) < (1 + b / 365) ^ (365 : ℕ) :=
      pow_lt_pow_left₀ h2 h1 (by norm_num)
    exact mul_lt_mul_of_pos_right (sub_lt_sub_right h3 1) (by norm_num)

/-- Witness for C2's amended theorem at `apr = -1, 1, 2`. -/
theorem c2_apy_zero_and_monotone_witness :
    calculate_apy 0 = 0 ∧ calculate_apy (-1) = 0 ∧
    calculate_apy 1 = ((1 + (1 : ℚ) / 365) ^ (365 : ℕ) - 1) * 100 ∧
    calculate_apy 1 < calculate_apy 2 :=
  ⟨c2_apy_zero_and_monotone.1,
   c2_apy_zero_and_monotone.2.1 (-1) (by norm_num),
   c2_apy_zero_and_monotone.2.2.1 1 (by norm_num),
   c2_apy_zero_and_monotone.2.2.2 1 2 (by norm_num) (by norm_num)⟩

/-! ## C1 — metrics of a zero-TVL pool -/

/-- C1 counterexample: for a pool whose TVL is 0 the 1% price impact is
not 0 — `_estimate_price_impact` returns the maximum impact `100.0` when
`tvl_usd == 0`. -/
theorem c1_counterexample_price_impact :
    zeroPool.tvl_usd = 0 ∧ calculate_tvl zeroPool [] = 0 ∧
    (calculate_pool_metrics zeroPool []).price_impact_1pct = 100 ∧
    (calculate_pool_metrics zeroPool []).price_impact_1pct ≠ 0 := by
  refine ⟨rfl, ?_, ?_, ?_⟩ <;>
    norm_num [calculate_tvl, calculate_pool_metrics, estimate_price_impact, zeroPool,
      get_token0_reserve, get_token1_reserve, priceGetD, dictLookup]

/-- C1 amended: for a pool whose stored and computed TVL are both 0, the
base APR and base APY are exactly 0 (both divisions are guarded, so no
division by zero occurs), but the total APY equals
`calculate_apy(rewards APR)` — zero only when the rewards APR is ≤ 0 —
and the 1% price impact is the sentinel `100.0`, not 0. -/
theorem c1_zero_tvl_metrics (p : Pool) (prices : List (String × ℚ))
    (h0 : p.tvl_usd = 0) (h1 : calculate_tvl p prices = 0) :
    (calculate_pool_metrics p prices).apr_base = 0 ∧
    (calculate_pool_metrics p prices).apy_base = 0 ∧
    (calculate_pool_metrics p prices).apy_total = calculate_apy (get_rewards_apr p) ∧
    (calculate_pool_metrics p prices).price_impact_1pct = 100 := by
  have hapr : calculate_base_apr p (calculate_tvl p prices) = 0 := by
    simp [calculate_base_apr, h1]
  refine ⟨?_, ?_, ?_, ?_⟩ <;>
    simp [calculate_pool_metrics, hapr, estimate_price_impact, h0, calculate_apy]

/-- Witness for C1's amended theorem at the all-defaults SushiSwap pool
with an empty price dict. -/
theorem c1_zero_tvl_metrics_witness :
    (calculate_pool_metrics zeroPool []).apr_base = 0 ∧
    (calculate_pool_metrics zeroPool []).apy_base = 0 ∧
    (calculate_pool_metrics zeroPool []).apy_total = calculate_apy (get_rewards_apr zeroPool) ∧
    (calculate_pool_metrics zeroPool []).price_impact_1pct = 100 :=
  c1_zero_tvl_metrics zeroPool [] rfl
    (by norm_num [calculate_tvl, zeroPool, get_token0_reserve, get_token1_reserve,
      priceGetD, dictLookup])

/-! ## C10 — risk-score bounds -/

/-- C10: for every pool processed by `calculate_pool_metrics` the risk
score lies in [0, 92]: the four summands are non-negative and bounded by
40 (impermanent loss), 30 (TVL band), 15 (protocol tier) and 7 (network
tier), so the cap at 100 never binds and the all-maximum value 100 is
unreachable. -/
theorem c10_risk_score_bounds (p : Pool) (prices : List (String × ℚ)) :
    0 ≤ il_risk_component (estimate_impermanent_loss p 7) ∧
    il_risk_component (estimate_impermanent_loss p 7) ≤ 40 ∧
    0 ≤ tvl_risk_component (calculate_tvl p prices) ∧
    tvl_risk_component (calculate_tvl p prices) ≤ 30 ∧
    0 ≤ protocol_risk_component p ∧ protocol_risk_component p ≤ 15 ∧
    0 ≤ network_risk_component p ∧ network_risk_component p ≤ 7 ∧
    0 ≤ (calculate_pool_metrics p prices).risk_score ∧
    (calculate_pool_metrics p prices).risk_score ≤ 92 := by
  have hil : 0 ≤ estimate_impermanent_loss p 7 := by
    unfold estimate_impermanent_loss
    split_ifs <;> norm_num
  have h1 : 0 ≤ il_risk_component (estimate_impermanent_loss p 7) :=
    le_min (by linarith) (by norm_num)
  have h2 : il_risk_component (estimate_impermanent_loss p 7) ≤ 40 :=
    min_le_right _ _
  have h3 : 0 ≤ tvl_risk_component (calculate_tvl p prices) ∧
      tvl_risk_component (calculate_tvl p prices) ≤ 30 := by
    unfold tvl_risk_component
    split_ifs <;> norm_num
  have h4 : 0 ≤ protocol_risk_component p ∧ protocol_risk_component p ≤ 15 := by
    unfold protocol_risk_component
    split_ifs <;> norm_num
  have h5 : 0 ≤ network_risk_component p ∧ network_risk_component p ≤ 7 := by
    unfold network_risk_component
    split_ifs <;> norm_num
  have hscore : (calculate_pool_metrics p prices).risk_score =
      calculate_risk_score p (estimate_impermanent_loss p 7) (calculate_tvl p prices) := rfl
  have hsum : il_risk_component (estimate_impermanent_loss p 7)
      + tvl_risk_component (calculate_tvl p prices)
      + protocol_risk_component p + network_risk_component p ≤ 92 := by
    linarith [h2, h3.2, h4.2, h5.2]
  refine ⟨h1, h2, h3.1, h3.2, h4.1, h4.2, h5.1, h5.2, ?_, ?_⟩
  · rw [hscore]
    unfold calculate_risk_score
    exact le_min (by linarith [h1, h3.1, h4.1, h5.1]) (by norm_num)
  · rw [hscore]
    unfold calculate_risk_score
    exact le_trans (min_le_left _ _) hsum

/-! ## C9 — the stable-swap end-to-end scenario -/

/-- C9 counterexample: the scenario's 7-day impermanent loss is the Curve
constant `0.1`, not the claimed `0.1 × 7 = 0.7` —
`_estimate_impermanent_loss` returns `0.1` for every Curve pool before
the per-day scaling is reached. -/
theorem c9_counterexample_il7 :
    (calculate_pool_metrics curveScenarioPool curveScenarioPrices).impermanent_loss_7d
      = 1 / 10 ∧
    (calculate_pool_metrics curveScenarioPool curveScenarioPrices).impermanent_loss_7d
      ≠ 7 / 10 := by
  constructor <;>
    norm_num [calculate_pool_metrics, estimate_impermanent_loss, curveScenarioPool]

/-- C9 amended: on the scenario pool (reserves 1,000,000 USDC and
1,000,000 USDT at price 1.0 each, `fees_24h = 40`) the code computes
TVL = 2,000,000 and base APR = 0.73 as claimed, but the base APY is
`calculate_apy(0.73) = ((1 + 0.73/365)^365 − 1) × 100 ≥ 73` — two orders
of magnitude above the claimed ≈ 0.732 — and the 7-day impermanent loss
is the fixed Curve constant `0.1`, not `0.7`. -/
theorem c9_scenario_metrics :
    (calculate_pool_metrics curveScenarioPool curveScenarioPrices).tvl_usd = 2000000 ∧
    (calculate_pool_metrics curveScenarioPool curveScenarioPrices).apr_base = 73 / 100 ∧
    (calculate_pool_metrics curveScenarioPool curveScenarioPrices).apy_base
      = calculate_apy (73 / 100) ∧
    73 ≤ (calculate_pool_metrics curveScenarioPool curveScenarioPrices).apy_base ∧
    (calculate_pool_metrics curveScenarioPool curveScenarioPrices).impermanent_loss_7d
      = 1 / 10 := by
  have htvl : calculate_tvl curveScenarioPool curveScenarioPrices = 2000000 := by
    norm_num [calculate_tvl, curveScenarioPool, curveScenarioPrices, get_token0_reserve,
      get_token1_reserve, get_token0_symbol, get_token1_symbol, priceGetD, dictLookup,
      show pyLower "USDC" = "usdc" from by decide,
      show pyLower "USDT" = "usdt" from by decide]
  have hapr : calculate_base_apr curveScenarioPool 2000000 = 73 / 100 := by
    norm_num [calculate_base_apr, curveScenarioPool]
  have hapy : (73 : ℚ) ≤ calculate_apy (73 / 100) := by
    have hber := one_add_mul_le_pow (a := (73 : ℚ) / 36500) (by norm_num) 365
    have hcast : ((365 : ℕ) : ℚ) * (73 / 36500) = 73 / 100 := by norm_num
    rw [hcast] at hber
    have harg : (1 : ℚ) + 73 / 100 / 365 = 1 + 73 / 36500 := by norm_num
    rw [calculate_apy, if_neg (by norm_num), harg]
    linarith
  refine ⟨?_, ?_, ?_, ?_, ?_⟩
  · show calculate_tvl curveScenarioPool curveScenarioPrices = 2000000
    exact htvl
  · show calculate_base_apr curveScenarioPool
      (calculate_tvl curveScenarioPool curveScenarioPrices) = 73 / 100
    rw [htvl, hapr]
  · show calculate_apy (calculate_base_apr curveScenarioPool
      (calculate_tvl curveScenarioPool curveScenarioPrices)) = calculate_apy (73 / 100)
    rw [htvl, hapr]
  · show (73 : ℚ) ≤ calculate_apy (calculate_base_apr curveScenarioPool
      (calculate_tvl curveScenarioPool curveScenarioPrices))
    rw [htvl, hapr]
    exact hapy
  · norm_num [calculate_pool_metrics, estimate_impermanent_loss, curveScenarioPool]

end Scraper
